import Mathlib

/-
Verification of the `Board` view controller of midnight-fundraiser
(src/bboard-ui/src/components/Board.tsx).

The embedding models the pieces of the component that carry logic:

* `toShortFormatContractAddress` and the anchored truncation regex;
* the `disabled` expression of the take-down button;
* the component state held in the React hooks, the handler of
  deployment-stream emissions, the handler of board-state emissions, and
  the three asynchronous callbacks `onPostMessage`, `onSendToken` and
  `onDeleteMessage`.

Asynchronous collaborator calls are modelled with explicit outcome
oracles (`Except` values for each awaited promise), and each handler
returns, next to the new component state, the trace of collaborator
calls it issued; every trace entry is paired with the value of the
working flag at the moment the call was issued.
-/

namespace Fundraiser

/-- Character class test for the regex class [A-Fa-f0-9] used by the
address-truncation regex in Board.tsx. -/
def isHexDigit (c : Char) : Bool :=
  (decide ('0' ≤ c) && decide (c ≤ '9')) ||
  (decide ('a' ≤ c) && decide (c ≤ 'f')) ||
  (decide ('A' ≤ c) && decide (c ≤ 'F'))

/-- The newline character; the regex dot matches any character except it. -/
def newlineChar : Char := Char.ofNat 10

/-- Acceptance of the anchored regex in `toShortFormatContractAddress`:
six hex digits, eight hex digits (group one), a greedy run of characters
other than a newline, and eight hex digits (group two) at the end of the
string. Because the two groups have fixed width and the pattern is
anchored on both sides, a match exists exactly under the conditions
below, and group two is forced to be the final eight characters. -/
def truncRegexAccepts (l : List Char) : Bool :=
  decide (22 ≤ l.length) &&
  (l.take 6).all isHexDigit &&
  ((l.drop 6).take 8).all isHexDigit &&
  ((l.drop 14).take (l.length - 22)).all (fun c => c != newlineChar) &&
  (l.drop (l.length - 8)).all isHexDigit

/-- The replace call on the address: when the regex matches, the match is
replaced by group one, an ellipsis, and group two; otherwise the string
is returned unchanged. -/
def truncReplace (l : List Char) : List Char :=
  if truncRegexAccepts l then
    (l.drop 6).take 8 ++ '.' :: '.' :: '.' :: l.drop (l.length - 8)
  else l

/-- Models `toShortFormatContractAddress` from Board.tsx: an absent or
empty (falsy) address yields no element; otherwise the rendered text is
0x followed by the replace result. -/
def toShortFormatContractAddress : Option String → Option String
  | none => none
  | some (String.mk l) =>
      if l = [] then none else some (String.mk ('0' :: 'x' :: truncReplace l))

/-- Modelled from the words of claim C10: a string made of six hex
characters followed by at least sixteen more hex characters. -/
def claimTenPattern (l : List Char) : Bool :=
  decide (22 ≤ l.length) && l.all isHexDigit

/-- The two contract states exported by contract/src and consumed by the
view (State.VACANT and State.OCCUPIED). -/
inductive State where
  | vacant
  | occupied
deriving DecidableEq, BEq

/-- The derived contract-state snapshot consumed by the view. -/
structure BBoardDerivedState where
  state : State
  title : String
  message : String
  goal : Nat
  isOwner : Bool
deriving DecidableEq

/-- The `disabled` attribute of the take-down button. The JS expression
compares an optionally chained `boardState?.state`, so an absent snapshot
makes both disjuncts false. -/
def takeDownDisabled (boardState : Option BBoardDerivedState) : Bool :=
  (match boardState with
   | some b => b.state == State.vacant
   | none => false) ||
  (match boardState with
   | some b => b.state == State.occupied && !b.isOwner
   | none => false)

/-- The deployed contract API handle, reduced to the data the component
reads from it. -/
structure APIHandle where
  deployedContractAddress : String
deriving DecidableEq

/-- A deployment-stream emission. -/
inductive BoardDeployment where
  | inProgress
  | failed (message : String)
  | deployed (api : APIHandle)
deriving DecidableEq

/-- The component state held in the React useState hooks. -/
structure Component where
  boardDeployment : Option BoardDeployment
  deployedBoardAPI : Option APIHandle
  errorMessage : Option String
  boardState : Option BBoardDerivedState
  messagePrompt : Option String
  titlePrompt : Option String
  goalPrompt : Option String
  isWorking : Bool
deriving DecidableEq

/-- Initial hook state when a deployment observable is supplied: every
useState starts undefined and `isWorking` starts true. -/
def initialComponent : Component :=
  { boardDeployment := none
    deployedBoardAPI := none
    errorMessage := none
    boardState := none
    messagePrompt := none
    titlePrompt := none
    goalPrompt := none
    isWorking := true }

/-- The fallback error text used when a failed deployment carries an
empty message. -/
def genericErrorText : String := "Encountered an unexpected error."

/-- One emission of the deployment observable: the subscription stores
the deployment, then the effect hook returns early on in-progress, clears
the working flag otherwise, and either records the error text or the API
handle. Nothing in this handler touches the error message on the
deployed path. -/
def processDeployment (s : Component) (d : BoardDeployment) : Component :=
  match d with
  | BoardDeployment.inProgress => { s with boardDeployment := some d }
  | BoardDeployment.failed msg =>
      { s with boardDeployment := some d
               isWorking := false
               errorMessage := some (if msg.length != 0 then msg else genericErrorText) }
  | BoardDeployment.deployed api =>
      { s with boardDeployment := some d
               isWorking := false
               deployedBoardAPI := some api }

/-- One emission of the contract-state observable: the snapshot replaces
the previous one wholesale. -/
def processBoardState (s : Component) (b : BBoardDerivedState) : Component :=
  { s with boardState := some b }

/-- The network identifiers of the zswap SDK. -/
inductive NetworkId where
  | undeployed
  | devNet
  | testNet
  | mainNet
deriving DecidableEq

/-- The argument tuple of WalletBuilder.build. -/
structure WalletConfig where
  indexerUri : String
  indexerWsUri : String
  provingServerUri : String
  substrateNodeUri : String
  seed : String
  networkId : NetworkId
deriving DecidableEq

/-- The hard-coded WalletBuilder.build arguments in `onSendToken`. -/
def fixedWalletConfig : WalletConfig :=
  { indexerUri := "https://indexer.testnet-02.midnight.network/api/v1/graphql"
    indexerWsUri := "wss://indexer.testnet-02.midnight.network/api/v1/graphql/ws"
    provingServerUri := "http://localhost:6300"
    substrateNodeUri := "https://rpc.testnet-02.midnight.network"
    seed := "0000000000000000000000000000000000000000000000000000000000000000"
    networkId := NetworkId.testNet }

/-- Collaborator calls issued by the handlers; wallets are identified by
a number so that freshness across calls can be stated. -/
inductive Effect where
  | getWalletAddress
  | post (title message : String) (goal : Nat) (walletAddress : String)
  | takeDown
  | buildWallet (config : WalletConfig)
  | startWallet (wallet : Nat)
  | contributeWithWallet (wallet : Nat) (amount : Nat)
deriving DecidableEq

/-- JS truthiness of an optional string: undefined and the empty string
are falsy. -/
def falsyStr : Option String → Bool
  | none => true
  | some s => s.data.isEmpty

/-- Models String.prototype.trim: strips whitespace from both ends. -/
def trimChars (l : List Char) : List Char :=
  ((l.dropWhile Char.isWhitespace).reverse.dropWhile Char.isWhitespace).reverse

/-- The test of the funding-goal regex (anchored, one or more decimal
digits): nonempty and all decimal digits. -/
def digitsOnlyL (l : List Char) : Bool :=
  !l.isEmpty && l.all Char.isDigit

/-- BigInt of a decimal digit string. -/
def digitsToNat (l : List Char) : Nat :=
  l.foldl (fun n c => 10 * n + (c.toNat - 48)) 0

/-- The validation text for missing fields. -/
def fillInAllFieldsText : String := "Please fill in all fields (title, goal, and message)"

/-- The validation text for a malformed funding goal. -/
def goalValidationText : String := "Please enter a valid positive integer for the funding goal"

/-- Models `onPostMessage`. Promise outcomes for the wallet-address
lookup and the post call are supplied as oracles; each effect is paired
with the value of the working flag at the moment the call is issued.
Validation failures return before the try block, so the working flag is
untouched there; inside the try block the finally clause clears the flag
on every path, and the flag is raised only after the wallet address has
resolved, just before the post call. -/
def onPostMessage (s : Component) (walletOutcome : Except String String)
    (postOutcome : Except String Unit) : Component × List (Effect × Bool) :=
  if falsyStr s.titlePrompt || falsyStr s.messagePrompt || falsyStr s.goalPrompt then
    ({ s with errorMessage := some fillInAllFieldsText }, [])
  else if !digitsOnlyL (trimChars ((s.goalPrompt.getD "").data)) then
    ({ s with errorMessage := some goalValidationText }, [])
  else
    match s.deployedBoardAPI with
    | none => ({ s with isWorking := false }, [])
    | some _ =>
      match walletOutcome with
      | Except.error e =>
          ({ s with errorMessage := some e, isWorking := false },
           [(Effect.getWalletAddress, s.isWorking)])
      | Except.ok walletAddress =>
          match postOutcome with
          | Except.error e =>
              ({ s with errorMessage := some e, isWorking := false },
               [(Effect.getWalletAddress, s.isWorking),
                (Effect.post (s.titlePrompt.getD "") (s.messagePrompt.getD "")
                   (digitsToNat (trimChars ((s.goalPrompt.getD "").data))) walletAddress, true)])
          | Except.ok _ =>
              ({ s with isWorking := false },
               [(Effect.getWalletAddress, s.isWorking),
                (Effect.post (s.titlePrompt.getD "") (s.messagePrompt.getD "")
                   (digitsToNat (trimChars ((s.goalPrompt.getD "").data))) walletAddress, true)])

/-- Models `onSendToken`: with an API handle present it builds a wallet
from the fixed configuration, starts it and contributes one token; a
rejected promise stores its message; the finally clause clears the
working flag on every path, and nothing in the body ever raises the
flag. -/
def onSendToken (s : Component) (buildOutcome : Except String Nat)
    (contributeOutcome : Except String Unit) : Component × List (Effect × Bool) :=
  match s.deployedBoardAPI with
  | none => ({ s with isWorking := false }, [])
  | some _ =>
    match buildOutcome with
    | Except.error e =>
        ({ s with errorMessage := some e, isWorking := false },
         [(Effect.buildWallet fixedWalletConfig, s.isWorking)])
    | Except.ok wallet =>
        match contributeOutcome with
        | Except.error e =>
            ({ s with errorMessage := some e, isWorking := false },
             [(Effect.buildWallet fixedWalletConfig, s.isWorking),
              (Effect.startWallet wallet, s.isWorking),
              (Effect.contributeWithWallet wallet 1, s.isWorking)])
        | Except.ok _ =>
            ({ s with isWorking := false },
             [(Effect.buildWallet fixedWalletConfig, s.isWorking),
              (Effect.startWallet wallet, s.isWorking),
              (Effect.contributeWithWallet wallet 1, s.isWorking)])

/-- Models `onDeleteMessage`: raises the working flag, invokes takeDown,
and clears the flag on every path. -/
def onDeleteMessage (s : Component) (outcome : Except String Unit) :
    Component × List (Effect × Bool) :=
  match s.deployedBoardAPI with
  | none => ({ s with isWorking := false }, [])
  | some _ =>
    match outcome with
    | Except.error e =>
        ({ s with errorMessage := some e, isWorking := false }, [(Effect.takeDown, true)])
    | Except.ok _ => ({ s with isWorking := false }, [(Effect.takeDown, true)])


/-! Helper lemmas shared by the claim theorems. -/

/-- A hex digit is never a newline. -/
theorem hex_ne_newline (c : Char) (h : isHexDigit c = true) : (c != newlineChar) = true := by
  cases hc : c == newlineChar
  · simp [bne, hc]
  · have hce : c = newlineChar := eq_of_beq hc
    subst hce
    exact absurd h (by decide)

/-- An all-quantified boolean predicate restricts to sublists. -/
theorem all_of_subset {l m : List Char} {p : Char → Bool}
    (h : l.all p = true) (hsub : m ⊆ l) : m.all p = true := by
  rw [List.all_eq_true] at h ⊢
  intro x hx
  exact h x (hsub hx)

/-- Emissions of the deployment stream never erase an error message; they
either leave it alone or set one. -/
theorem processDeployment_errorMono (s : Component) (d : BoardDeployment) :
    (processDeployment s d).errorMessage.isSome = true ∨
    (processDeployment s d).errorMessage = s.errorMessage := by
  cases d
  · exact Or.inr rfl
  · exact Or.inl rfl
  · exact Or.inr rfl

/-- The post callback never erases an error message. -/
theorem onPostMessage_errorMono (s : Component) (wo : Except String String)
    (po : Except String Unit) :
    (onPostMessage s wo po).1.errorMessage.isSome = true ∨
    (onPostMessage s wo po).1.errorMessage = s.errorMessage := by
  unfold onPostMessage
  split
  · exact Or.inl rfl
  · split
    · exact Or.inl rfl
    · split
      · exact Or.inr rfl
      · split
        · exact Or.inl rfl
        · split
          · exact Or.inl rfl
          · exact Or.inr rfl

/-- The send-token callback never erases an error message. -/
theorem onSendToken_errorMono (s : Component) (bo : Except String Nat)
    (co : Except String Unit) :
    (onSendToken s bo co).1.errorMessage.isSome = true ∨
    (onSendToken s bo co).1.errorMessage = s.errorMessage := by
  unfold onSendToken
  split
  · exact Or.inr rfl
  · split
    · exact Or.inl rfl
    · split
      · exact Or.inl rfl
      · exact Or.inr rfl

/-- The take-down callback never erases an error message. -/
theorem onDeleteMessage_errorMono (s : Component) (o : Except String Unit) :
    (onDeleteMessage s o).1.errorMessage.isSome = true ∨
    (onDeleteMessage s o).1.errorMessage = s.errorMessage := by
  unfold onDeleteMessage
  split
  · exact Or.inr rfl
  · split
    · exact Or.inl rfl
    · exact Or.inr rfl


/-! Claim C1: the working flag during the contribute-tokens operation. -/

/-- C1 counterexample: invoking the contribute-tokens operation from a
state whose working flag is false issues the wallet build, the wallet
start and the contribution call all with the working flag still false;
the operation never sets the flag to true, refuting the claim that the
flag is true for the duration of the contribution call. -/
theorem c1_counterexample :
    ¬ (((onSendToken { initialComponent with isWorking := false, deployedBoardAPI := some { deployedContractAddress := "c0" } } (Except.ok 0) (Except.ok ())).2.all fun e => e.2 == true) = true) := by
  decide

/-- C1 (amended): the contribute-tokens operation never modifies the
working flag before its calls: every collaborator call it issues runs
with the flag at its prior value, and the flag is set to false on every
exit path (success or failure) of the operation. -/
theorem c1_theorem (s : Component) (bo : Except String Nat) (co : Except String Unit) :
    (onSendToken s bo co).1.isWorking = false ∧
    ((onSendToken s bo co).2.all fun e => e.2 == s.isWorking) = true := by
  rcases hd : s.deployedBoardAPI with _ | a
  · simp [onSendToken, hd]
  · cases bo <;> cases co <;> simp [onSendToken, hd]

/-! Claim C2: enabling of the take-down action. -/

/-- C2 counterexample: with no board-state snapshot received yet the
claim requires the take-down action to be disabled, but the disabled
expression evaluates to false (the button is enabled). -/
theorem c2_counterexample : ¬ (takeDownDisabled none = true) := by decide

/-- C2 (amended): the take-down action is enabled exactly when no
snapshot has been received yet, or the latest snapshot is occupied with
the owner flag true; it is disabled exactly when the snapshot is vacant
or occupied with the owner flag false. -/
theorem c2_theorem (b : Option BBoardDerivedState) :
    takeDownDisabled b = false ↔
      b = none ∨ ∃ st, b = some st ∧ st.state = State.occupied ∧ st.isOwner = true := by
  cases b with
  | none => simp [takeDownDisabled]
  | some st =>
    obtain ⟨sc, t, m, g, o⟩ := st
    cases sc <;> cases o <;> simp [takeDownDisabled] <;> decide

/-! Claim C6: error text of a failed deployment emission. -/

/-- C6: when the deployment stream emits a failed status, the stored
error text is the payload message when that message is nonempty and the
generic fallback otherwise; the displayed text is never empty. -/
theorem c6_theorem (s : Component) (msg : String) :
    (processDeployment s (BoardDeployment.failed msg)).errorMessage =
      some (if msg.length != 0 then msg else genericErrorText) ∧
    (((processDeployment s (BoardDeployment.failed msg)).errorMessage.getD "").length == 0)
      = false := by
  constructor
  · rfl
  · cases h : (msg.length != 0) with
    | true =>
      have h2 : (msg.length == 0) = false := by
        cases hq : (msg.length == 0)
        · rfl
        · rw [bne, hq] at h
          exact absurd h (by decide)
      simp [processDeployment, h, h2]
    | false =>
      simp [processDeployment, h]
      decide

/-! Claim C7: the working indicator across a deployment. -/

/-- C7: starting from the initial state with a deployment observable
supplied, the working flag is true while the latest status is
in-progress and false immediately after a deployed emission. -/
theorem c7_theorem (api : APIHandle) :
    (processDeployment initialComponent BoardDeployment.inProgress).isWorking = true ∧
    (processDeployment (processDeployment initialComponent BoardDeployment.inProgress)
        (BoardDeployment.deployed api)).isWorking = false :=
  ⟨rfl, rfl⟩


/-! Claim C3: persistence of the error message. -/

/-- C3 counterexample: with an error message set, a subsequent successful
deployed emission does not clear it, refuting the claim that such an
emission resets the error. -/
theorem c3_counterexample :
    ¬ ((processDeployment { initialComponent with errorMessage := some "boom" }
        (BoardDeployment.deployed { deployedContractAddress := "a" })).errorMessage = none) := by
  decide

/-- C3 (amended): once the error message has been set it is never
cleared: no deployment emission (a successful deployed emission
included), no board-state emission and no user action (post, contribute,
take-down) resets it; it can only be overwritten by another error. -/
theorem c3_theorem (s : Component) (he : s.errorMessage.isSome = true) :
    (∀ d, (processDeployment s d).errorMessage.isSome = true) ∧
    (∀ b, (processBoardState s b).errorMessage.isSome = true) ∧
    (∀ wo po, (onPostMessage s wo po).1.errorMessage.isSome = true) ∧
    (∀ bo co, (onSendToken s bo co).1.errorMessage.isSome = true) ∧
    (∀ o, (onDeleteMessage s o).1.errorMessage.isSome = true) := by
  refine ⟨fun d => ?_, fun b => he, fun wo po => ?_, fun bo co => ?_, fun o => ?_⟩
  · rcases processDeployment_errorMono s d with h | h
    · exact h
    · rw [h]; exact he
  · rcases onPostMessage_errorMono s wo po with h | h
    · exact h
    · rw [h]; exact he
  · rcases onSendToken_errorMono s bo co with h | h
    · exact h
    · rw [h]; exact he
  · rcases onDeleteMessage_errorMono s o with h | h
    · exact h
    · rw [h]; exact he

/-- C3 witness: a concrete state with an error set keeps a set error
across a deployed emission, a board-state emission, a post, a token
contribution and a take-down. -/
theorem c3_witness :
    ({ initialComponent with errorMessage := some "boom" } : Component).errorMessage.isSome
      = true ∧
    (processDeployment { initialComponent with errorMessage := some "boom" }
        (BoardDeployment.deployed { deployedContractAddress := "a" })).errorMessage.isSome
      = true ∧
    (processBoardState { initialComponent with errorMessage := some "boom" }
        { state := State.vacant, title := "t", message := "m", goal := 0,
          isOwner := false }).errorMessage.isSome = true ∧
    (onPostMessage { initialComponent with errorMessage := some "boom" }
        (Except.ok "w") (Except.ok ())).1.errorMessage.isSome = true ∧
    (onSendToken { initialComponent with errorMessage := some "boom" }
        (Except.ok 0) (Except.ok ())).1.errorMessage.isSome = true ∧
    (onDeleteMessage { initialComponent with errorMessage := some "boom" }
        (Except.ok ())).1.errorMessage.isSome = true := by
  have h := c3_theorem { initialComponent with errorMessage := some "boom" } (by decide)
  exact ⟨by decide, h.1 _, h.2.1 _, h.2.2.1 _ _, h.2.2.2.1 _ _, h.2.2.2.2 _⟩

/-! Claim C5: validation in the post callback. -/

/-- C5: a post submission with a missing (undefined or empty) title,
message or goal sets the fill-in-all-fields error and issues no
collaborator call; a submission with all fields present whose trimmed
goal is not a nonempty digit string sets the goal-validation error and
issues no collaborator call. -/
theorem c5_theorem (s : Component) (wo : Except String String) (po : Except String Unit) :
    ((falsyStr s.titlePrompt || falsyStr s.messagePrompt || falsyStr s.goalPrompt) = true →
      onPostMessage s wo po = ({ s with errorMessage := some fillInAllFieldsText }, [])) ∧
    ((falsyStr s.titlePrompt || falsyStr s.messagePrompt || falsyStr s.goalPrompt) = false →
      digitsOnlyL (trimChars ((s.goalPrompt.getD "").data)) = false →
      onPostMessage s wo po = ({ s with errorMessage := some goalValidationText }, [])) := by
  constructor
  · intro h
    simp [onPostMessage, h]
  · intro h1 h2
    simp [onPostMessage, h1, h2]

/-- A concrete form state used by the C5 witness: all fields present but
the goal malformed. -/
def postFormExample : Component :=
  { initialComponent with
      titlePrompt := some "t"
      messagePrompt := some "m"
      goalPrompt := some "12a" }

/-- C5 witness: the initial state has missing fields and submitting sets
the fill-in-all-fields error with no collaborator call; a state whose
goal is the non-numeric string 12a sets the goal-validation error with
no collaborator call. -/
theorem c5_witness :
    ((falsyStr initialComponent.titlePrompt || falsyStr initialComponent.messagePrompt ||
        falsyStr initialComponent.goalPrompt) = true ∧
      onPostMessage initialComponent (Except.ok "w") (Except.ok ()) =
        ({ initialComponent with errorMessage := some fillInAllFieldsText }, [])) ∧
    ((falsyStr postFormExample.titlePrompt || falsyStr postFormExample.messagePrompt ||
        falsyStr postFormExample.goalPrompt) = false ∧
      digitsOnlyL (trimChars ((postFormExample.goalPrompt.getD "").data)) = false ∧
      onPostMessage postFormExample (Except.ok "w") (Except.ok ()) =
        ({ postFormExample with errorMessage := some goalValidationText }, [])) :=
  ⟨⟨by decide, (c5_theorem initialComponent (Except.ok "w") (Except.ok ())).1 (by decide)⟩,
   ⟨by decide, by decide,
    (c5_theorem postFormExample (Except.ok "w") (Except.ok ())).2 (by decide) (by decide)⟩⟩

/-! Claim C9: a valid post submission with no deployed API handle. -/

/-- C9: a post submission that passes both validations while no deployed
API handle is available issues no collaborator call, leaves the error
message (and every other field) unchanged, and only clears the working
flag. -/
theorem c9_theorem (s : Component) (wo : Except String String) (po : Except String Unit)
    (h1 : (falsyStr s.titlePrompt || falsyStr s.messagePrompt || falsyStr s.goalPrompt) = false)
    (h2 : digitsOnlyL (trimChars ((s.goalPrompt.getD "").data)) = true)
    (h3 : s.deployedBoardAPI = none) :
    onPostMessage s wo po = ({ s with isWorking := false }, []) := by
  simp [onPostMessage, h1, h2, h3]

/-- A concrete form state used by the C9 witness: all fields valid, no
API handle. -/
def postReadyExample : Component :=
  { initialComponent with
      titlePrompt := some "t"
      messagePrompt := some "m"
      goalPrompt := some "7" }

/-- C9 witness: a concrete valid submission with no API handle completes
silently, only clearing the working flag. -/
theorem c9_witness :
    (falsyStr postReadyExample.titlePrompt || falsyStr postReadyExample.messagePrompt ||
      falsyStr postReadyExample.goalPrompt) = false ∧
    digitsOnlyL (trimChars ((postReadyExample.goalPrompt.getD "").data)) = true ∧
    postReadyExample.deployedBoardAPI = none ∧
    onPostMessage postReadyExample (Except.ok "w") (Except.ok ()) =
      ({ postReadyExample with isWorking := false }, []) :=
  ⟨by decide, by decide, rfl,
   c9_theorem postReadyExample (Except.ok "w") (Except.ok ()) (by decide) (by decide) rfl⟩

/-! Claim C8: the wallet used by the contribute-tokens operation. -/

/-- C8: with an API handle present (the only situation in which the
send-tokens button is rendered), every contribute-tokens invocation
issues exactly one wallet build, with the fixed hard-coded endpoint
configuration, then starts the wallet returned by that very build, then
contributes exactly one token unit with it; and the resulting component
state does not depend on the wallet, so the wallet is not retained
across calls. -/
theorem c8_theorem (s : Component) (w : Nat) (co : Except String Unit)
    (h : s.deployedBoardAPI.isSome = true) :
    (onSendToken s (Except.ok w) co).2 =
      [(Effect.buildWallet fixedWalletConfig, s.isWorking),
       (Effect.startWallet w, s.isWorking),
       (Effect.contributeWithWallet w 1, s.isWorking)] ∧
    ∀ w2 : Nat, (onSendToken s (Except.ok w) co).1 = (onSendToken s (Except.ok w2) co).1 := by
  rcases hd : s.deployedBoardAPI with _ | a
  · rw [hd] at h
    exact absurd h (by decide)
  · constructor
    · cases co <;> simp [onSendToken, hd]
    · intro w2
      cases co <;> simp [onSendToken, hd]

/-- A concrete state used by the C8 witness: an API handle is present. -/
def sendReadyExample : Component :=
  { initialComponent with deployedBoardAPI := some { deployedContractAddress := "c0" } }

/-- C8 witness: a concrete contribute-tokens invocation builds a wallet
from the fixed configuration, starts that wallet, contributes one token
with it, and ends in the same state as an invocation whose build yields
a different wallet. -/
theorem c8_witness :
    sendReadyExample.deployedBoardAPI.isSome = true ∧
    (onSendToken sendReadyExample (Except.ok 3) (Except.ok ())).2 =
      [(Effect.buildWallet fixedWalletConfig, sendReadyExample.isWorking),
       (Effect.startWallet 3, sendReadyExample.isWorking),
       (Effect.contributeWithWallet 3 1, sendReadyExample.isWorking)] ∧
    (onSendToken sendReadyExample (Except.ok 3) (Except.ok ())).1 =
      (onSendToken sendReadyExample (Except.ok 4) (Except.ok ())).1 :=
  ⟨rfl, (c8_theorem sendReadyExample 3 (Except.ok ()) rfl).1,
   (c8_theorem sendReadyExample 3 (Except.ok ()) rfl).2 4⟩


/-! Claim C4: the truncated display of a matching contract address. -/

/-- C4 counterexample: a string of twenty hex characters has at least 14
hex characters and a hex prefix, yet the regex (which needs 22
characters) does not match, so the display shows 0x followed by the
whole address rather than the claimed truncated form. -/
theorem c4_counterexample :
    ¬ ((List.replicate 20 'a').all isHexDigit = true →
        14 ≤ (List.replicate 20 'a').length →
        toShortFormatContractAddress (some (String.mk (List.replicate 20 'a'))) =
          some (String.mk ('0' :: 'x' ::
            (((List.replicate 20 'a').drop 6).take 8 ++ '.' :: '.' :: '.' ::
              (List.replicate 20 'a').drop ((List.replicate 20 'a').length - 8))))) := by
  decide

/-- C4 (amended): for every contract address of at least 22 hex
characters (the fixed 6-character prefix plus at least 16 more), the
truncated display is 0x, the 8 hex characters following the 6-character
prefix, an ellipsis, and the last 8 hex characters of the address. -/
theorem c4_theorem (l : List Char) (hhex : l.all isHexDigit = true)
    (hlen : 22 ≤ l.length) :
    toShortFormatContractAddress (some (String.mk l)) =
      some (String.mk ('0' :: 'x' ::
        ((l.drop 6).take 8 ++ '.' :: '.' :: '.' :: l.drop (l.length - 8)))) := by
  have hne : ¬ (l = []) := by
    intro h
    subst h
    simp at hlen
  have h1 : (l.take 6).all isHexDigit = true :=
    all_of_subset hhex (List.take_subset _ _)
  have h2 : ((l.drop 6).take 8).all isHexDigit = true :=
    all_of_subset hhex (List.Subset.trans (List.take_subset _ _) (List.drop_subset _ _))
  have h3 : (l.drop (l.length - 8)).all isHexDigit = true :=
    all_of_subset hhex (List.drop_subset _ _)
  have h4 : ((l.drop 14).take (l.length - 22)).all (fun c => c != newlineChar) = true := by
    rw [List.all_eq_true]
    intro x hx
    have hxl : x ∈ l := List.drop_subset _ _ (List.take_subset _ _ hx)
    exact hex_ne_newline x (List.all_eq_true.mp hhex x hxl)
  have hacc : truncRegexAccepts l = true := by
    simp [truncRegexAccepts, h1, h2, h3, h4, hlen]
  simp [toShortFormatContractAddress, truncReplace, hacc, hne]

/-- C4 witness: a concrete 22-character hex address is displayed in the
truncated 0x-prefixed form. -/
theorem c4_witness :
    (List.replicate 22 'a').all isHexDigit = true ∧
    22 ≤ (List.replicate 22 'a').length ∧
    toShortFormatContractAddress (some (String.mk (List.replicate 22 'a'))) =
      some (String.mk ('0' :: 'x' ::
        (((List.replicate 22 'a').drop 6).take 8 ++ '.' :: '.' :: '.' ::
          (List.replicate 22 'a').drop ((List.replicate 22 'a').length - 8)))) :=
  ⟨by decide, by decide, c4_theorem (List.replicate 22 'a') (by decide) (by decide)⟩

/-! Claim C10: the display of a non-matching contract address. -/

/-- C10 counterexample: the empty string does not match the pattern the
claim describes, yet the display function returns nothing rather than
0x followed by the address; moreover a 23-character string with a
non-hex character in the middle also fails the claim pattern, yet the
regex does match it and the display is the truncated form, not the
unchanged address. -/
theorem c10_counterexample :
    (¬ (claimTenPattern [] = false →
        toShortFormatContractAddress (some (String.mk [])) =
          some (String.mk ['0', 'x']))) ∧
    (¬ (claimTenPattern
          (List.replicate 6 'a' ++ List.replicate 8 'b' ++ ['Z'] ++ List.replicate 8 'c')
            = false →
        toShortFormatContractAddress (some (String.mk
          (List.replicate 6 'a' ++ List.replicate 8 'b' ++ ['Z'] ++ List.replicate 8 'c'))) =
          some (String.mk ('0' :: 'x' ::
            (List.replicate 6 'a' ++ List.replicate 8 'b' ++ ['Z'] ++
              List.replicate 8 'c'))))) := by
  constructor
  · decide
  · decide

/-- C10 (amended): for every nonempty contract address string rejected by
the source regex (six hex characters, eight hex characters, any run of
characters other than a newline, and eight hex characters at the end),
the rendered title is 0x followed by the entire original address
unchanged; the empty string, being falsy, renders no title at all. -/
theorem c10_theorem (l : List Char) (hne : l ≠ [])
    (hacc : truncRegexAccepts l = false) :
    toShortFormatContractAddress (some (String.mk l)) =
      some (String.mk ('0' :: 'x' :: l)) ∧
    toShortFormatContractAddress (some (String.mk [])) = none := by
  constructor
  · simp [toShortFormatContractAddress, truncReplace, hacc, hne]
  · rfl

/-- C10 witness: the one-character non-hex address z is rendered as 0xz
and the empty address renders nothing. -/
theorem c10_witness :
    (['z'] : List Char) ≠ [] ∧
    truncRegexAccepts ['z'] = false ∧
    (toShortFormatContractAddress (some (String.mk ['z'])) =
        some (String.mk ['0', 'x', 'z']) ∧
      toShortFormatContractAddress (some (String.mk [])) = none) :=
  ⟨by decide, by decide, c10_theorem ['z'] (by decide) (by decide)⟩

end Fundraiser
